import Mathlib

/-!
Verification of the FlowSense inbound-event pipeline (WhatsApp cobranza bot).

Shallow embedding of the relevant parts of `src/index.js` (blocks
`v-2025-12-31-BLOQUE9-PRODUCTION-CHECKLIST` and
`v-2025-12-30-HOTFIX-SAVEPHONE`) and `src/db.js`:

* durable + in-memory dedup and the per-identity rate limiter,
* the Stripe event lock and the `/webhook/stripe` handler skeleton,
* `isPro` / `ensureDailyCounter` / `incrementUsage` / `enforcePaywallIfNeeded`,
* the intent hard guard for the literal `pagar`,
* the `remind_choose_tone` state-machine step and its escape hatch,
* `db.js` `updateUser` over an association-list table model.

Modelling conventions:
* JS timestamps (`Date.now()`, SQL `now()`) are `Nat` milliseconds passed in
  explicitly; the calendar day `dayKey()` is an opaque `String` parameter.
* `sha1` is modelled as the identity on its input string: the code only ever
  compares digests of strings for equality, and SHA-1 is collision-free on
  the inputs involved, so equality of digests coincides with equality of the
  hashed strings.
* Awaited DB/external calls become explicit state passing; a thrown/rejected
  call is modelled by a boolean fault flag reproducing the `catch` branch.
* Reply copy text is abstracted to constructor tags (which branch produced
  the reply), since the claims are about branches and state, not copy text.
-/

namespace Cobranza

/-- JS `String.prototype.toLowerCase`, modelled per character. -/
def jsToLower (s : String) : String := ⟨s.data.map Char.toLower⟩

/-- Drop whitespace at both ends of a character list (JS `trim`). -/
def trimData (l : List Char) : List Char :=
  ((l.dropWhile Char.isWhitespace).reverse.dropWhile Char.isWhitespace).reverse

/-- Collapse every maximal whitespace run to a single `' '`
(JS `replace(/\s+/g, " ")`). -/
def squashWS : List Char → List Char
  | [] => []
  | [c] => [if c.isWhitespace then ' ' else c]
  | a :: b :: rest =>
      if a.isWhitespace && b.isWhitespace then squashWS (b :: rest)
      else (if a.isWhitespace then ' ' else a) :: squashWS (b :: rest)

/-- `normalizeText` from `index.js`:
`String(s || "").trim().replace(/\s+/g, " ")`. -/
def normalizeText (s : String) : String := ⟨squashWS (trimData s.data)⟩

/-- `normalizeText(body).toLowerCase()`, the combination used throughout the
routers and the state machine. -/
def normLower (s : String) : String := jsToLower (normalizeText s)

/-- JS `String.prototype.includes pat` (substring test). -/
def containsSub (s pat : String) : Bool := decide (pat.data <:+: s.data)

/-- The intent tags produced by the hard guard, the local router and the
OpenAI fallback in the BLOQUE9 block of `index.js`. -/
inductive Intent
  | add_debt | list_debts | prioritize | remind | mark_paid | save_phone
  | pricing | want_pro | pay | help | support_start | support_inline
  | privacy | terms | opt_out | opt_in
  | admin_kpis_today | admin_users_today | admin_pro_active
  | admin_tickets_today | admin_tickets_open
  | unknown
deriving DecidableEq, Repr

/-- `BILLABLE_INTENTS` from `index.js` (BLOQUE9). -/
def BILLABLE_INTENTS : List Intent :=
  [Intent.add_debt, Intent.save_phone, Intent.prioritize, Intent.remind, Intent.mark_paid]

/-- `BILLABLE_INTENTS.has(intent)`. -/
def isBillable (i : Intent) : Bool := BILLABLE_INTENTS.any (fun j => j = i)

/-- The `source` tag attached to every intent resolution (observability). -/
inductive IntentSource
  | hard_guard | local_router | openai
deriving DecidableEq, Repr

/-- The intent-parse step of the BLOQUE9 WhatsApp webhook
(`index.js` lines 2230-2241):

```
let parsed = null;
if (normalizeText(body).toLowerCase() === "pagar") {
  parsed = { intent: "pay" };              // source: hard_guard
} else {
  parsed = localRouter(body);              // source: local_router
  if (!parsed) parsed = await parseMessage(body);  // source: openai
}
```

The local router and the external NLP resolver are injected as parameters
(`router`, `nlp`), so the theorem can quantify over *any* behaviour of those
two components. -/
def resolveIntent (router : String → Option Intent) (nlp : String → Intent)
    (body : String) : Intent × IntentSource :=
  if normLower body = "pagar" then (Intent.pay, IntentSource.hard_guard)
  else
    match router body with
    | some i => (i, IntentSource.local_router)
    | none => (nlp body, IntentSource.openai)

/-- The payload stored while a reminder flow is pending
(`pending_payload` for `remind_choose_tone` / `remind_confirm_send`). -/
structure RemindPayload where
  clientName : Option String
  toPhone : Option String
  amount : Option Nat
  tone : Option String
  msg : Option String
deriving DecidableEq, Repr

/-- The identity record (one row of `public.users`), restricted to the fields
the pipeline components read or write.  `daily_count` models the JS
`user.daily_count || 0` coalescing (SQL NULL reads as 0). -/
structure User where
  plan : String
  pro_source : Option String
  pro_until : Option Nat
  stripe_status : Option String
  stripe_current_period_end : Option Nat
  daily_count : Nat
  daily_count_day : String
  pending_action : Option String
  pending_payload : Option RemindPayload
  seen_onboarding : Bool
deriving DecidableEq, Repr

/-- `LIMITS.free_daily_actions` from `index.js` (BLOQUE9). -/
def LIMITS_free_daily_actions : Nat := 15

/-- `isPro(user)` from `index.js` (BLOQUE9, lines 1614-1642), with `now` the
value of `Date.now()`. -/
def isPro (now : Nat) (u : User) : Bool :=
  let plan := jsToLower u.plan
  let proUntilOk :=
    match u.pro_until with
    | some t => decide (t > now)
    | none => false
  if plan ≠ "pro" then proUntilOk
  else
    let source := jsToLower (u.pro_source.getD "")
    if source = "stripe" then
      let status := jsToLower (u.stripe_status.getD "")
      if status = "active" ∨ status = "trialing" then true
      else
        let periodOk :=
          match u.stripe_current_period_end with
          | some t => decide (t > now)
          | none => false
        if status = "past_due" ∨ status = "unpaid" then periodOk || proUntilOk
        else if status = "canceled" ∨ status = "incomplete_expired" then proUntilOk
        else periodOk || proUntilOk
    else proUntilOk || decide (plan = "pro")

/-- `ensureDailyCounter(user)`: lazily roll the daily counter to `today`
(the DB write `updateUser(phone, {daily_count_day, daily_count: 0})` becomes
a pure record update). -/
def ensureDailyCounter (today : String) (u : User) : User :=
  if u.daily_count_day ≠ today then { u with daily_count_day := today, daily_count := 0 }
  else u

/-- `incrementUsage(user, reqId, intent)` (the metric call is dropped). -/
def incrementUsage (now : Nat) (intent : Intent) (u : User) : User :=
  if ¬ isBillable intent then u
  else if isPro now u then u
  else { u with daily_count := u.daily_count + 1 }

/-- Result of `enforcePaywallIfNeeded`; `paywallMsgSent` records whether the
blocked branch emitted `COPY.paywallHit` on the twiml response. -/
structure GateResult where
  blocked : Bool
  user : User
  lowActionsWarning : Bool
  paywallMsgSent : Bool
deriving DecidableEq, Repr

/-- `enforcePaywallIfNeeded({user, reqId, intent, twiml})` from `index.js`
(BLOQUE9, lines 1666-1684).  The remaining-quota comparison is over `Int`
exactly as in JS (`limit - count === 3`). -/
def enforcePaywallIfNeeded (now : Nat) (today : String) (intent : Intent)
    (u : User) : GateResult :=
  if ¬ isBillable intent then ⟨false, u, false, false⟩
  else
    let u1 := ensureDailyCounter today u
    if isPro now u1 then ⟨false, u1, false, false⟩
    else if u1.daily_count ≥ LIMITS_free_daily_actions then ⟨true, u1, false, true⟩
    else
      let u2 := incrementUsage now intent u1
      let remaining : Int := (LIMITS_free_daily_actions : Int) - (u2.daily_count : Int)
      ⟨false, u2, decide (remaining = 3), false⟩

/-- The user state after `n` successive billable actions of the same intent
have gone through the paywall gate (each action feeds the gate's returned
user into the next delivery, as the webhook does via `user = gate.user`). -/
def runActions (now : Nat) (today : String) (intent : Intent) (u : User) :
    Nat → User
  | 0 => u
  | n + 1 => (enforcePaywallIfNeeded now today intent (runActions now today intent u n)).user

/-- The gate result observed on the `n`-th action (`n ≥ 1`). -/
def nthGate (now : Nat) (today : String) (intent : Intent) (u : User) (n : Nat) :
    GateResult :=
  enforcePaywallIfNeeded now today intent (runActions now today intent u (n - 1))

/-- The spec's description of a pro-equivalent plan (claim C5): an unexpired
`pro_until` from a trial or admin grant, an active/trialing billing
subscription, or a past_due/unpaid billing subscription still inside the
stored period-end grace timestamp (the billing categories come with
`plan = "pro"`, `pro_source = "stripe"` as the billing webhook mirrors them). -/
def proEquivalentSpec (now : Nat) (u : User) : Prop :=
  (∃ t, u.pro_until = some t ∧ now < t ∧
      (u.pro_source = some "trial" ∨ u.pro_source = some "admin")) ∨
  (u.plan = "pro" ∧ u.pro_source = some "stripe" ∧
      (u.stripe_status = some "active" ∨ u.stripe_status = some "trialing")) ∨
  (u.plan = "pro" ∧ u.pro_source = some "stripe" ∧
      (u.stripe_status = some "past_due" ∨ u.stripe_status = some "unpaid") ∧
      ∃ t, u.stripe_current_period_end = some t ∧ now < t)

/-- `DEDUP_SID_TTL_MS` (in-memory MessageSid cache TTL). -/
def DEDUP_SID_TTL_MS : Nat := 10 * 60 * 1000

/-- `DEDUP_BODY_TTL_MS` (in-memory content-hash cache TTL, the "short
window"). -/
def DEDUP_BODY_TTL_MS : Nat := 15 * 1000

/-- `RL_WINDOW_MS` (rate-limiter sliding window). -/
def RL_WINDOW_MS : Nat := 15 * 1000

/-- `RL_MAX_MSGS` (rate-limiter ceiling per window). -/
def RL_MAX_MSGS : Nat := 6

/-- Retention of rows in `public.inbound_dedup`:
`cleanupInboundDedup` deletes rows with `created_at < now() - interval '2 days'`. -/
def DEDUP_DB_RETENTION_MS : Nat := 2 * 24 * 60 * 60 * 1000

/-- `sha1` modelled as the identity on the hashed string (see header). -/
def sha1 (s : String) : String := s

/-- One row of `public.inbound_dedup` (the `phone` / `message_sid` /
`payload_hash` audit columns play no role in the dedup decision). -/
structure DedupEntry where
  k : String
  createdAt : Nat
deriving DecidableEq, Repr

/-- The durable dedup table. -/
abbrev DedupStore := List DedupEntry

/-- Primary-key lookup on the dedup table. -/
def hasKey : DedupStore → String → Bool
  | [], _ => false
  | e :: rest, key => if e.k = key then true else hasKey rest key

/-- Result shape of `dbDedupTryInsert`. -/
structure DedupResult where
  ok : Bool
  inserted : Bool
  skipped : Bool
deriving DecidableEq, Repr

/-- `dbDedupTryInsert({key, ...})` (`index.js` BLOQUE9, lines 1535-1553):
`insert ... on conflict (k) do nothing returning k`; a store error is caught
and reported as `{ok: false, inserted: true, skipped: false}` (fail-open). -/
def dbDedupTryInsert (enabled dbError : Bool) (now : Nat) (store : DedupStore)
    (key : String) : DedupResult × DedupStore :=
  if ¬ enabled then (⟨true, true, false⟩, store)
  else if dbError then (⟨false, true, false⟩, store)
  else if hasKey store key then (⟨true, false, true⟩, store)
  else (⟨true, true, false⟩, ⟨key, now⟩ :: store)

/-- `cleanupInboundDedup` (`index.js` BLOQUE9, lines 1528-1533). -/
def cleanupInboundDedup (now : Nat) (store : DedupStore) : DedupStore :=
  store.filter (fun e => decide (¬ (e.createdAt + DEDUP_DB_RETENTION_MS < now)))

/-- The in-process `TTLMap` (key ↦ expiry timestamp). -/
abbrev TTLMap := List (String × Nat)

/-- `this.map.get(key)`. -/
def ttlFind : TTLMap → String → Option Nat
  | [], _ => none
  | e :: rest, key => if e.1 = key then some e.2 else ttlFind rest key

/-- `TTLMap.has(key)`: absent or expired (`Date.now() > exp`) is a miss. -/
def ttlHas (now : Nat) (m : TTLMap) (key : String) : Bool :=
  match ttlFind m key with
  | none => false
  | some exp => decide (¬ now > exp)

/-- `TTLMap.set(key, ttlMs)`: `map.set(key, Date.now() + ttlMs)`. -/
def ttlSet (now ttl : Nat) : TTLMap → String → TTLMap
  | [], key => [(key, now + ttl)]
  | e :: rest, key =>
      if e.1 = key then (key, now + ttl) :: rest else e :: ttlSet now ttl rest key

/-- The in-process per-identity rate-limiter state (`rlState`). -/
abbrev RlState := List (String × List Nat)

/-- `rlState.get(phone) || []`. -/
def rlGet : RlState → String → List Nat
  | [], _ => []
  | e :: rest, phone => if e.1 = phone then e.2 else rlGet rest phone

/-- `rlState.set(phone, fresh)`. -/
def rlSet : RlState → String → List Nat → RlState
  | [], phone, arr => [(phone, arr)]
  | e :: rest, phone, arr =>
      if e.1 = phone then (phone, arr) :: rest else e :: rlSet rest phone arr

/-- `isRateLimited(phone)` (`index.js` BLOQUE9, lines 1485-1492): filter the
window, push `now`, store, and report whether the count exceeds the ceiling. -/
def rlTouch (now : Nat) (rl : RlState) (phone : String) : Bool × RlState :=
  let arr := rlGet rl phone
  let fresh := (arr.filter (fun t => decide (now - t < RL_WINDOW_MS))) ++ [now]
  (decide (fresh.length > RL_MAX_MSGS), rlSet rl phone fresh)

/-- One inbound WhatsApp delivery (`From`, `Body`, optional `MessageSid`). -/
structure WaMsg where
  sender : String
  body : String
  messageSid : Option String
deriving DecidableEq, Repr

/-- State threaded through the dedup / rate-limit block of the BLOQUE9
WhatsApp webhook.  `effects` counts applied business effects: it is bumped
exactly when control falls through the whole block into the intent pipeline
(the post-gate pipeline is abstracted to that single applied effect). -/
structure WaState where
  db : DedupStore
  memSid : TTLMap
  memHash : TTLMap
  rl : RlState
  effects : Nat
deriving DecidableEq, Repr

/-- The webhook's observable response for one delivery: an empty
acknowledgement (deduped: no reply at all), the throttle reply, or a normal
processed reply. -/
inductive WaOutcome
  | emptyAck | rateLimitedReply | processed
deriving DecidableEq, Repr

/-- The fresh in-process + durable state. -/
def emptyWaState : WaState := ⟨[], [], [], [], 0⟩

/-- The dedup + rate-limit block of `app.post("/webhook/whatsapp")`
(`index.js` BLOQUE9, lines 2100-2140), for a delivery that passed the
signature check, kill switch and opt-out gate.  Exactly in source order:

1. durable insert of `sid:{MessageSid}` (when a sid is present) — conflict
   returns the empty acknowledgement;
2. durable insert of `hash:{sha1(from|body)}` — conflict returns the empty
   acknowledgement;
3. in-memory sid cache check, then set;
4. in-memory hash cache check, then set;
5. rate limiter (only when `from` is truthy) — over the ceiling returns the
   throttle reply;
6. otherwise the message is processed (one applied business effect).

A store error inside `dbDedupTryInsert` is already caught there; the outer
`catch` (`DEDUP_FAIL_OPEN`) never fires in this model because no other
statement of the block throws. -/
def waStep (dbEnabled dbError : Bool) (now : Nat) (m : WaMsg) (st : WaState) :
    WaOutcome × WaState :=
  let sidStep :=
    match m.messageSid with
    | some sid =>
        let r := dbDedupTryInsert dbEnabled dbError now st.db ("sid:" ++ sid)
        (r.1.skipped, r.2)
    | none => (false, st.db)
  if sidStep.1 then (WaOutcome.emptyAck, { st with db := sidStep.2 })
  else
    let db1 := sidStep.2
    let payloadHash := sha1 (m.sender ++ "|" ++ m.body)
    let rHash := dbDedupTryInsert dbEnabled dbError now db1 ("hash:" ++ payloadHash)
    if rHash.1.skipped then (WaOutcome.emptyAck, { st with db := rHash.2 })
    else
      let db2 := rHash.2
      let memSidHit :=
        match m.messageSid with
        | some sid => ttlHas now st.memSid sid
        | none => false
      if memSidHit then (WaOutcome.emptyAck, { st with db := db2 })
      else
        let memSid1 :=
          match m.messageSid with
          | some sid => ttlSet now DEDUP_SID_TTL_MS st.memSid sid
          | none => st.memSid
        if ttlHas now st.memHash payloadHash then
          (WaOutcome.emptyAck, { st with db := db2, memSid := memSid1 })
        else
          let memHash1 := ttlSet now DEDUP_BODY_TTL_MS st.memHash payloadHash
          if m.sender = "" then
            (WaOutcome.processed,
              { db := db2, memSid := memSid1, memHash := memHash1, rl := st.rl,
                effects := st.effects + 1 })
          else
            let rlr := rlTouch now st.rl m.sender
            if rlr.1 then
              (WaOutcome.rateLimitedReply,
                { db := db2, memSid := memSid1, memHash := memHash1, rl := rlr.2,
                  effects := st.effects })
            else
              (WaOutcome.processed,
                { db := db2, memSid := memSid1, memHash := memHash1, rl := rlr.2,
                  effects := st.effects + 1 })

/-- Run the same message once per timestamp in `ts` (replayed deliveries),
DB dedup enabled and healthy. -/
def waRunFrom (m : WaMsg) : WaState → List Nat → List WaOutcome × WaState
  | st, [] => ([], st)
  | st, t :: ts =>
      let r := waStep true false t m st
      let rest := waRunFrom m r.2 ts
      (r.1 :: rest.1, rest.2)

/-- Interleaved deliveries and retention sweeps of the durable dedup table. -/
inductive WaEvent
  | deliver (now : Nat) (m : WaMsg)
  | sweep (now : Nat)
deriving DecidableEq, Repr

/-- Run a trace of deliveries and sweeps (DB dedup enabled and healthy);
sweeps produce no outcome. -/
def waRunEvents : WaState → List WaEvent → List WaOutcome × WaState
  | st, [] => ([], st)
  | st, WaEvent.deliver t m :: es =>
      let r := waStep true false t m st
      let rest := waRunEvents r.2 es
      (r.1 :: rest.1, rest.2)
  | st, WaEvent.sweep t :: es =>
      waRunEvents { st with db := cleanupInboundDedup t st.db } es

/-- The state reached after the first (fresh) delivery of
`⟨u, b, some sid⟩` at time `t` from the fresh state. -/
def waS1 (u b sid : String) (t : Nat) : WaState :=
  { db := [⟨"hash:" ++ sha1 (u ++ "|" ++ b), t⟩, ⟨"sid:" ++ sid, t⟩],
    memSid := [(sid, t + DEDUP_SID_TTL_MS)],
    memHash := [(sha1 (u ++ "|" ++ b), t + DEDUP_BODY_TTL_MS)],
    rl := if u = "" then [] else [(u, [t])],
    effects := 1 }

/-- A column value of `public.users`; `none` models SQL `NULL` (JS `null`),
and non-string JS values (numbers, JSON payloads) are abstracted to their
string image, which the claims never inspect. -/
abbrev DbVal := Option String

/-- One `public.users` row as a column ↦ value association list; a column
absent from the list still has its schema default (never written yet). -/
abbrev Row := List (String × DbVal)

/-- Read a column of a row: `some v` if the column was written (possibly to
NULL), `none` if untouched. -/
def rowGet : Row → String → Option DbVal
  | [], _ => none
  | e :: rest, c => if e.1 = c then some e.2 else rowGet rest c

/-- SQL `set c = v` on a row. -/
def rowSet : Row → String → DbVal → Row
  | [], c, v => [(c, v)]
  | e :: rest, c, v => if e.1 = c then (c, v) :: rest else e :: rowSet rest c v

/-- Apply the patch's column assignments in order (the SQL `set k1 = $2, ...,
kn = $n+1` built from `Object.keys(patch)`). -/
def applyPatch (r : Row) (patch : List (String × DbVal)) : Row :=
  patch.foldl (fun acc kv => rowSet acc kv.1 kv.2) r

/-- The `public.users` table, keyed by `phone` (primary key). -/
abbrev UserTable := List (String × Row)

/-- `select ... where phone = $1` (first match; `phone` is unique). -/
def tget : UserTable → String → Option Row
  | [], _ => none
  | e :: rest, p => if e.1 = p then some e.2 else tget rest p

/-- `update ... where phone = $1` applied to the stored rows. -/
def tset : UserTable → String → Row → UserTable
  | [], _, _ => []
  | e :: rest, p, r => if e.1 = p then (p, r) :: tset rest p r else e :: tset rest p r

/-- The row produced by `insert into public.users (phone) values ($1)`:
only `phone` is written, every other column keeps its schema default. -/
def newUserRow (phone : String) : Row := [("phone", some phone)]

/-- `getOrCreateUser(phone)` from `db.js` (lines 35-44):
`insert ... on conflict (phone) do update set updated_at = now() returning *`. -/
def getOrCreateUser (nowTs : String) (t : UserTable) (phone : String) :
    Row × UserTable :=
  match tget t phone with
  | some r =>
      let rNew := rowSet r "updated_at" (some nowTs)
      (rNew, tset t phone rNew)
  | none =>
      let r := newUserRow phone
      (r, t ++ [(phone, r)])

/-- The plain `update public.users set <patch>, updated_at = now() where
phone = $1 returning *` used (twice) inside `updateUser`. -/
def dbUpdateRows (nowTs : String) (t : UserTable) (phone : String)
    (patch : List (String × DbVal)) : Option Row × UserTable :=
  match tget t phone with
  | some r =>
      let rNew := rowSet (applyPatch r patch) "updated_at" (some nowTs)
      (some rNew, tset t phone rNew)
  | none => (none, t)

/-- `updateUser(phone, patch)` from `db.js` (lines 46-78): empty patch
delegates to `getOrCreateUser`; otherwise update, and if no row matched,
create the row and update again. -/
def updateUser (nowTs : String) (t : UserTable) (phone : String)
    (patch : List (String × DbVal)) : Option Row × UserTable :=
  if patch.isEmpty then
    let g := getOrCreateUser nowTs t phone
    (some g.1, g.2)
  else
    match dbUpdateRows nowTs t phone patch with
    | (some r, tNew) => (some r, tNew)
    | (none, _) =>
        let g := getOrCreateUser nowTs t phone
        dbUpdateRows nowTs g.2 phone patch

/-- A verified billing event envelope.  The subscription mirror values
(`customerId`, `subscriptionId`, `status`, `periodEnd`) are the data the
handler obtains from the session object / subscription retrieval; they are
opaque to the claims. -/
structure StripeEvent where
  id : String
  type : String
  phone : Option String
  customerId : Option String
  subscriptionId : Option String
  status : String
  periodEnd : Option String
deriving DecidableEq, Repr

/-- One row of `public.stripe_events`; `processed` models whether
`processed_at` has been set (claimed-and-finished vs claimed-only). -/
structure StripeLock where
  event_id : String
  processed : Bool
deriving DecidableEq, Repr

/-- `event_id` primary-key lookup on `public.stripe_events`. -/
def hasLock : List StripeLock → String → Bool
  | [], _ => false
  | l :: rest, eid => if l.event_id = eid then true else hasLock rest eid

/-- State touched by the Stripe webhook: the event-lock table, the users
table, and the outbound WhatsApp sends (`sendWhatsAppOut`) as a log. -/
structure StripeState where
  locks : List StripeLock
  users : UserTable
  outbox : List (String × String)
deriving DecidableEq, Repr

/-- `acquireStripeEventLock(event)` (`index.js` BLOQUE9, lines 1841-1864):
`insert into public.stripe_events ... on conflict (event_id) do nothing
returning event_id`; a store error is caught and reported as `false`
(treated as duplicate). -/
def acquireStripeEventLock (dbError : Bool) (locks : List StripeLock)
    (ev : StripeEvent) : Bool × List StripeLock :=
  if dbError then (false, locks)
  else if hasLock locks ev.id then (false, locks)
  else (true, ⟨ev.id, false⟩ :: locks)

/-- `markStripeEventProcessed(eventId)`:
`update public.stripe_events set processed_at = now() where event_id = $1`. -/
def markStripeEventProcessed : List StripeLock → String → List StripeLock
  | [], _ => []
  | l :: rest, eid =>
      (if l.event_id = eid then ⟨l.event_id, true⟩ else l) ::
        markStripeEventProcessed rest eid

/-- The webhook's HTTP response, by branch: signature failure (400),
duplicate event (`{received, deduped}`), processed (`{received}`), ignored
type (`{received, ignored}`), or the catch branch (500). -/
inductive StripeResp
  | sigFail | dedupedOk | receivedOk | ignoredOk | err500
deriving DecidableEq, Repr

/-- Whether the response is a success acknowledgement (HTTP 200 JSON),
which is what stops the billing collaborator from retrying. -/
def StripeResp.isSuccess : StripeResp → Bool
  | .dedupedOk => true
  | .receivedOk => true
  | .ignoredOk => true
  | _ => false

/-- The user patch written by the `checkout.session.completed` branch. -/
def checkoutPatch (ev : StripeEvent) : List (String × DbVal) :=
  [("plan", some "pro"), ("pro_source", some "stripe"), ("pro_until", none),
   ("stripe_customer_id", ev.customerId),
   ("stripe_subscription_id", ev.subscriptionId),
   ("stripe_status", some ev.status),
   ("stripe_current_period_end", ev.periodEnd)]

/-- `app.post("/webhook/stripe")` (`index.js` BLOQUE9, lines 1872-2061),
for a configured instance (billing enabled, Stripe ready):

1. signature verification — failure is a hard 400 reject, nothing runs;
2. `acquireStripeEventLock` — a duplicate (or store error) answers
   `{received, deduped}` with no effects;
3. the `try` block runs the per-type effects and `markStripeEventProcessed`;
   a thrown error there reaches the `catch` branch, which answers **500**
   (`effectsFail` models a rejection of the first awaited effect call);
4. of the five effectful event types, `checkout.session.completed` (user
   plan update via `updateUser`, outbound confirmation send) is embedded;
   the other four follow the same claim–effects–mark pattern and are not
   needed by the claims; an unrecognized type is marked and acknowledged
   as ignored. -/
def stripeWebhook (sigOk dbError effectsFail : Bool) (nowTs : String)
    (st : StripeState) (ev : StripeEvent) : StripeResp × StripeState :=
  if ¬ sigOk then (.sigFail, st)
  else
    let acq := acquireStripeEventLock dbError st.locks ev
    let st1 := { st with locks := acq.2 }
    if ¬ acq.1 then (.dedupedOk, st1)
    else if effectsFail then (.err500, st1)
    else if ev.type = "checkout.session.completed" then
      match ev.phone with
      | some p =>
          let upd := updateUser nowTs st1.users p (checkoutPatch ev)
          (.receivedOk,
            { locks := markStripeEventProcessed st1.locks ev.id,
              users := upd.2,
              outbox := (p, "payConfirmed") :: st1.outbox })
      | none =>
          (.receivedOk, { st1 with locks := markStripeEventProcessed st1.locks ev.id })
    else (.ignoredOk, { st1 with locks := markStripeEventProcessed st1.locks ev.id })

/-- `isNo(text)` (HOTFIX block, lines 3920-3923; identical in BLOQUE9):
the explicit cancel vocabulary. -/
def isNo (text : String) : Bool :=
  let t := normLower text
  t = "no" || t = "cancelar" || t = "cancela" || t = "alto" || t = "detener"

/-- `looksLikeNewCommand(text)` from the HOTFIX-SAVEPHONE block
(`index.js` lines 3926-3944): substring heuristics for "this message is a
new command, not an answer to the pending question". -/
def looksLikeNewCommand (text : String) : Bool :=
  let t := normLower text
  if t = "" then false
  else
    containsSub t "¿" || containsSub t "?" || containsSub t "quién" ||
    containsSub t "quien" || containsSub t "cobro" || containsSub t "debe" ||
    containsSub t "deuda" || containsSub t "pag" || containsSub t "guarda" ||
    containsSub t "telefono" || containsSub t "teléfono" ||
    containsSub t "recordatorio" || containsSub t "manda"

/-- `buildReminderMessage(tone, clientName, debtLine)` (HOTFIX block). -/
def buildReminderMessage (tone clientName debtLine : String) : String :=
  let name := if clientName = "" then "hola" else clientName
  let extra := if debtLine = "" then "" else "\n\n" ++ debtLine
  if tone = "firme" then
    "Hola " ++ name ++
      ".\nTe escribo para solicitar el pago pendiente. ¿Me confirmas hoy tu fecha y hora de pago?" ++ extra
  else if tone = "urgente" then
    "Hola " ++ name ++
      ".\nEste es un recordatorio URGENTE del pago pendiente. Necesito confirmación inmediata de cuándo lo vas a cubrir." ++ extra
  else
    "Hola " ++ name ++
      " 👋\nTe escribo para recordarte un pago pendiente. ¿Me confirmas cuándo podrás cubrirlo?" ++ extra

/-- The `debtLine` computed in the `remind_choose_tone` handler
(`Monto: ...`); the es-MX currency formatting is abstracted to `toString`. -/
def chooseToneDebtLine (amount : Option Nat) : String :=
  match amount with
  | some a => "Monto: " ++ toString a
  | none => ""

/-- `safeResetPending(phone)`: `updateUser(phone, {pending_action: null,
pending_payload: null})` as a record update. -/
def clearPending (u : User) : User :=
  { u with pending_action := none, pending_payload := none }

/-- The HOTFIX block's intent resolution: the local save-phone regex first
(`localParseSavePhone`), then the OpenAI fallback (`parseMessage`).  Both
resolvers are injected: `savePhoneMatch` says whether the regex matched
(its slots play no role in the claims), `nlp` is the untrusted fallback. -/
def resolveHF (savePhoneMatch : String → Bool) (nlp : String → Intent)
    (body : String) : Intent :=
  if savePhoneMatch body then Intent.save_phone else nlp body

/-- The webhook reply, by branch.  `commandReply i` stands for the reply the
idle-path handler produces for the resolved intent `i`; the per-intent
handling itself is outside these claims. -/
inductive Reply
  | onboarding
  | cancelled
  | toneReprompt
  | tonePreview (tone : String)
  | commandReply (i : Intent)
deriving DecidableEq, Repr

/-- The HOTFIX-SAVEPHONE WhatsApp webhook (`index.js` lines 4049-...),
restricted to the paths reachable from the `remind_choose_tone` state and
the idle state: onboarding gate, the cancel vocabulary, the
`remind_choose_tone` handler (lines 4099-4146) with its escape hatch, then
intent resolution.  The `remind_confirm_send` block (lines 4148-4202) is
omitted: it is a no-op unless `pending_action` is `remind_confirm_send`,
which no claim exercises (note the abort path checks the *original*
`user.pending_action`, so after an abort from `remind_choose_tone` that
block does not fire either).  After resolution, the per-intent branches are
abstracted to `Reply.commandReply` with no further user mutation. -/
def handleMessageHF (savePhoneMatch : String → Bool) (nlp : String → Intent)
    (u : User) (body : String) : Reply × User :=
  if ¬ u.seen_onboarding then (Reply.onboarding, { u with seen_onboarding := true })
  else if isNo body then (Reply.cancelled, clearPending u)
  else if u.pending_action = some "remind_choose_tone" then
    let t := normLower body
    if looksLikeNewCommand body && !containsSub t "amable" &&
        !containsSub t "firme" && !containsSub t "urgente" then
      -- escape hatch: silently clear the pending flow and fall through to
      -- intent resolution for this same message
      (Reply.commandReply (resolveHF savePhoneMatch nlp body), clearPending u)
    else
      let tone :=
        if containsSub t "amable" then some "amable"
        else if containsSub t "firme" then some "firme"
        else if containsSub t "urgente" then some "urgente"
        else none
      match tone with
      | none => (Reply.toneReprompt, u)
      | some tn =>
          let payload := u.pending_payload.getD ⟨none, none, none, none, none⟩
          let debtLine := chooseToneDebtLine payload.amount
          let msg := buildReminderMessage tn (payload.clientName.getD "hola") debtLine
          (Reply.tonePreview tn,
            { u with pending_action := some "remind_confirm_send",
                     pending_payload := some { payload with tone := some tn, msg := some msg } })
  else
    (Reply.commandReply (resolveHF savePhoneMatch nlp body), u)

end Cobranza

namespace Cobranza

/-- C6: for every inbound body whose normalized lowercase form is exactly
`"pagar"`, intent resolution yields the payment intent from the hard guard,
for every possible local router and every possible NLP fallback — neither
component is consulted, so neither can intercept or mis-route the payment
trigger. -/
theorem C6_hard_guard_pagar (router : String → Option Intent)
    (nlp : String → Intent) (body : String)
    (h : normLower body = "pagar") :
    resolveIntent router nlp body = (Intent.pay, IntentSource.hard_guard) := by
  unfold resolveIntent
  rw [if_pos h]

/-- Witness for C6 at the concrete body `"  PAGAR "` with a router that would
misclassify it as `help` and an NLP fallback that would return `unknown`. -/
theorem C6_hard_guard_pagar_witness :
    normLower "  PAGAR " = "pagar" ∧
      resolveIntent (fun _ => some Intent.help) (fun _ => Intent.unknown)
        "  PAGAR " = (Intent.pay, IntentSource.hard_guard) :=
  ⟨by decide, C6_hard_guard_pagar _ _ _ (by decide)⟩

theorem ensureDailyCounter_same (today : String) (u : User)
    (hd : u.daily_count_day = today) : ensureDailyCounter today u = u := by
  unfold ensureDailyCounter
  simp [hd]

theorem isPro_set_count (now : Nat) (u : User) (c : Nat) :
    isPro now { u with daily_count := c } = isPro now u := rfl

theorem isPro_ensureDailyCounter (now : Nat) (today : String) (u : User) :
    isPro now (ensureDailyCounter today u) = isPro now u := by
  unfold ensureDailyCounter
  split <;> rfl

theorem gate_free_step (now : Nat) (today : String) (intent : Intent) (u : User)
    (hb : isBillable intent = true) (hp : isPro now u = false)
    (hd : u.daily_count_day = today) :
    enforcePaywallIfNeeded now today intent u =
      if u.daily_count ≥ 15 then ⟨true, u, false, true⟩
      else
        ⟨false, { u with daily_count := u.daily_count + 1 },
          decide ((15 : Int) - ((u.daily_count + 1 : Nat) : Int) = 3), false⟩ := by
  unfold enforcePaywallIfNeeded incrementUsage LIMITS_free_daily_actions
  rw [ensureDailyCounter_same today u hd]
  simp [hb, hp]

theorem runActions_count (now : Nat) (today : String) (intent : Intent) (u : User)
    (hb : isBillable intent = true) (hp : isPro now u = false)
    (hd : u.daily_count_day = today) (h0 : u.daily_count = 0) :
    ∀ n, runActions now today intent u n = { u with daily_count := min n 15 } := by
  intro n
  induction n with
  | zero =>
      show u = { u with daily_count := min 0 15 }
      rw [Nat.zero_min, ← h0]
  | succ n ih =>
      show (enforcePaywallIfNeeded now today intent (runActions now today intent u n)).user = _
      rw [ih]
      rw [gate_free_step now today intent _ hb (by rw [isPro_set_count]; exact hp) (by exact hd)]
      by_cases hc : min n 15 ≥ 15
      · rw [if_pos hc]
        have : min (n + 1) 15 = min n 15 := by omega
        rw [this]
      · rw [if_neg hc]
        have : min (n + 1) 15 = min n 15 + 1 := by omega
        rw [this]

/-- C4: for a free-plan identity with the daily ceiling 15, starting a fresh
day at count 0, actions 1..15 all succeed (in particular the 15th), the
low-balance warning fires exactly on the action after which the remaining
quota equals 3 (the 12th), the 16th action is blocked and emits the paywall
message, and the daily counter never rises past the ceiling (after `n`
actions it is `min n 15`, so once at/over the ceiling it is not incremented
further). -/
theorem C4_paywall_boundary (now : Nat) (today : String) (intent : Intent)
    (u : User) (hb : isBillable intent = true) (hp : isPro now u = false)
    (hd : u.daily_count_day = today) (h0 : u.daily_count = 0) :
    (∀ k, 1 ≤ k → k ≤ 15 → (nthGate now today intent u k).blocked = false) ∧
    (∀ k, 1 ≤ k → k ≤ 15 →
        ((nthGate now today intent u k).lowActionsWarning = true ↔ k = 12)) ∧
    (nthGate now today intent u 16).blocked = true ∧
    (nthGate now today intent u 16).paywallMsgSent = true ∧
    (∀ n, (runActions now today intent u n).daily_count = min n 15) := by
  have hrun := runActions_count now today intent u hb hp hd h0
  have hgate : ∀ k : Nat, nthGate now today intent u k =
      if min (k - 1) 15 ≥ 15 then
        ⟨true, { u with daily_count := min (k - 1) 15 }, false, true⟩
      else
        ⟨false, { u with daily_count := min (k - 1) 15 + 1 },
          decide ((15 : Int) - ((min (k - 1) 15 + 1 : Nat) : Int) = 3), false⟩ := by
    intro k
    unfold nthGate
    rw [hrun (k - 1)]
    rw [gate_free_step now today intent _ hb (by rw [isPro_set_count]; exact hp) (by exact hd)]
  refine ⟨?_, ?_, ?_, ?_, ?_⟩
  · intro k hk1 hk15
    rw [hgate k, if_neg (by omega)]
  · intro k hk1 hk15
    rw [hgate k, if_neg (by omega)]
    have hmin : min (k - 1) 15 = k - 1 := by omega
    rw [hmin]
    constructor
    · intro hdec
      have := of_decide_eq_true hdec
      omega
    · intro hk
      subst hk
      rfl
  · rw [hgate 16, if_pos (by omega)]
  · rw [hgate 16, if_pos (by omega)]
  · intro n
    rw [hrun n]

/-- Witness for C4: a concrete free user at count 0 of today's day. -/
theorem C4_paywall_boundary_witness :
    isBillable Intent.add_debt = true ∧
      (nthGate 1000 "2025-12-31" Intent.add_debt
          ⟨"free", none, none, none, none, 0, "2025-12-31", none, none, true⟩
          16).blocked = true := by
  refine ⟨by decide, ?_⟩
  have h := C4_paywall_boundary 1000 "2025-12-31" Intent.add_debt
    ⟨"free", none, none, none, none, 0, "2025-12-31", none, none, true⟩
    (by decide) (by decide) rfl rfl
  exact h.2.2.1

theorem isPro_of_proEquivalent (now : Nat) (u : User)
    (h : proEquivalentSpec now u) : isPro now u = true := by
  have epro : jsToLower "pro" = "pro" := by decide
  have estripe : jsToLower "stripe" = "stripe" := by decide
  rcases h with ⟨t, hu, hlt, hsrc⟩ | ⟨hplan, hsrc, hst⟩ | ⟨hplan, hsrc, hst, t, hpe, hlt⟩
  · simp only [isPro]
    by_cases hplan : jsToLower u.plan = "pro"
    · rw [if_neg (by simp [hplan])]
      have hs : jsToLower (u.pro_source.getD "") ≠ "stripe" := by
        rcases hsrc with h | h <;> rw [h] <;> decide
      rw [if_neg hs, hu, hplan]
      simp [hlt]
    · rw [if_pos hplan, hu]
      simp [hlt]
  · simp only [isPro]
    rw [hplan, epro, if_neg (by simp), hsrc]
    simp only [Option.getD_some]
    rw [estripe, if_pos rfl]
    rcases hst with h | h <;> (rw [h]; simp only [Option.getD_some]; rw [if_pos (by decide)])
  · simp only [isPro]
    rw [hplan, epro, if_neg (by simp), hsrc]
    simp only [Option.getD_some]
    rw [estripe, if_pos rfl]
    rcases hst with h | h <;>
      (rw [h]; simp only [Option.getD_some];
       rw [if_neg (by decide), if_pos (by decide), hpe];
       simp [hlt])

/-- C5: an identity whose plan evaluates as pro-equivalent (unexpired
trial/admin `pro_until`, an active/trialing billing subscription, or a
past_due/unpaid subscription still within the stored period-end grace
timestamp) is never blocked by the paywall gate, never receives the paywall
message, and never has its daily counter incremented, regardless of how
large `daily_count` is. -/
theorem C5_pro_never_blocked (now : Nat) (today : String) (intent : Intent)
    (u : User) (h : proEquivalentSpec now u) :
    (enforcePaywallIfNeeded now today intent u).blocked = false ∧
    (enforcePaywallIfNeeded now today intent u).paywallMsgSent = false ∧
    (enforcePaywallIfNeeded now today intent u).user.daily_count ≤ u.daily_count := by
  have hpro := isPro_of_proEquivalent now u h
  unfold enforcePaywallIfNeeded
  by_cases hb : isBillable intent = true
  · rw [if_neg (by simp [hb])]
    have h1 : isPro now (ensureDailyCounter today u) = true := by
      rw [isPro_ensureDailyCounter]; exact hpro
    rw [if_pos (by rw [h1])]
    refine ⟨rfl, rfl, ?_⟩
    unfold ensureDailyCounter
    split
    · exact Nat.zero_le _
    · exact Nat.le_refl _
  · rw [if_pos (by simpa using hb)]
    exact ⟨rfl, rfl, Nat.le_refl _⟩

theorem key_prefix_ne (a b : String) : "sid:" ++ a ≠ "hash:" ++ b := by
  intro h
  have h2 : ("sid:" ++ a).data = ("hash:" ++ b).data := by rw [h]
  rw [String.data_append, String.data_append] at h2
  simp [String.data] at h2

theorem key_prefix_ne' (a b : String) : "hash:" ++ a ≠ "sid:" ++ b :=
  Ne.symm (key_prefix_ne b a)

theorem sid_append_inj (a b : String) (h : "sid:" ++ a = "sid:" ++ b) :
    a = b := by
  have h2 : ("sid:" ++ a).data = ("sid:" ++ b).data := by rw [h]
  rw [String.data_append, String.data_append] at h2
  exact String.ext (List.append_cancel_left h2)

theorem waStep_first (u b sid : String) (t : Nat) :
    waStep true false t ⟨u, b, some sid⟩ emptyWaState = (.processed, waS1 u b sid t) := by
  by_cases hu : u = "" <;>
    simp [waStep, dbDedupTryInsert, hasKey, ttlHas, ttlFind, ttlSet, rlTouch,
      rlGet, rlSet, RL_MAX_MSGS, emptyWaState, waS1, hu, key_prefix_ne]

theorem waStep_replay (u b sid : String) (t t' : Nat) :
    waStep true false t' ⟨u, b, some sid⟩ (waS1 u b sid t) =
      (.emptyAck, waS1 u b sid t) := by
  simp [waStep, dbDedupTryInsert, hasKey, waS1, key_prefix_ne']

theorem waRun_replay_tail (u b sid : String) (t : Nat) (ts : List Nat) :
    waRunFrom ⟨u, b, some sid⟩ (waS1 u b sid t) ts =
      (List.replicate ts.length .emptyAck, waS1 u b sid t) := by
  induction ts with
  | nil => rfl
  | cons t' ts ih => simp [waRunFrom, waStep_replay, ih, List.replicate]

/-- C1: replaying the same delivery (same identity, body and `MessageSid`)
once per timestamp in `t :: ts`, starting from the fresh state, applies
exactly one business effect in total; the first delivery is processed and
every replay yields the empty acknowledgement (no reply at all), because the
unique insert of the key `sid:{MessageSid}` conflicts for every delivery
after the first. -/
theorem C1_sid_replay_idempotent (u b sid : String) (t : Nat) (ts : List Nat) :
    (waRunFrom ⟨u, b, some sid⟩ emptyWaState (t :: ts)).2.effects = 1 ∧
    (waRunFrom ⟨u, b, some sid⟩ emptyWaState (t :: ts)).1 =
      WaOutcome.processed :: List.replicate ts.length WaOutcome.emptyAck := by
  have h1 := waStep_first u b sid t
  have h2 := waRun_replay_tail u b sid t ts
  constructor
  · show (waRunFrom ⟨u, b, some sid⟩
      (waStep true false t ⟨u, b, some sid⟩ emptyWaState).2 ts).2.effects = 1
    rw [h1, h2]
    rfl
  · show (waStep true false t ⟨u, b, some sid⟩ emptyWaState).1 ::
      (waRunFrom ⟨u, b, some sid⟩
        (waStep true false t ⟨u, b, some sid⟩ emptyWaState).2 ts).1 = _
    rw [h1, h2]

/-- C9: the durable dedup layer is fail-open.  A delivery handled while every
`dbDedupTryInsert` errors (store unavailable) behaves exactly as if the
durable store were absent — in particular the durable checks never drop the
event — and a message that the in-process layer has not seen is admitted and
processed normally. -/
theorem C9_dedup_fail_open (now : Nat) (m : WaMsg) :
    (∀ st, waStep true true now m st = waStep false false now m st) ∧
    (waStep true true now m emptyWaState).1 = WaOutcome.processed := by
  constructor
  · intro st
    rcases m with ⟨u, b, sid?⟩
    cases sid? <;>
      simp [waStep, dbDedupTryInsert]
  · rcases m with ⟨u, b, sid?⟩
    cases sid? <;> by_cases hu : u = "" <;>
      simp [waStep, dbDedupTryInsert, ttlHas, ttlFind, ttlSet, rlTouch, rlGet,
        rlSet, RL_MAX_MSGS, emptyWaState, hu]

/-- Counterexample to C8 as stated: two deliveries from the same identity
with identical body, carrying distinct fresh delivery ids, the second
arriving 16 s later — after the short content-hash window
(`DEDUP_BODY_TTL_MS` = 15 s) has elapsed.  The claim says the second is
treated as a new message and processed normally; the code answers it with
the empty acknowledgement, because the durable `hash:` key inserted by the
first delivery is retained for up to 2 days, not just for the short window. -/
theorem C8_counterexample :
    DEDUP_BODY_TTL_MS < 16000 ∧
    (waRunEvents emptyWaState
        [WaEvent.deliver 0 ⟨"u", "hola", some "s1"⟩,
         WaEvent.deliver 16000 ⟨"u", "hola", some "s2"⟩]).1 =
      [WaOutcome.processed, WaOutcome.emptyAck] ∧
    WaOutcome.emptyAck ≠ WaOutcome.processed := by decide

/-- C8 (amended): two deliveries from the same identity with identical body
are treated as one — the second gets no reply — for as long as the durable
`hash:` record persists, even after the short in-memory window has elapsed;
an identical body is treated as a new message and processed normally only
once the durable record has been garbage-collected (retention 2 days). -/
theorem C8_amended_hash_dedup (u b sid1 sid2 : String) (t1 t2 t3 : Nat)
    (hsid : sid1 ≠ sid2) (ht : t1 + DEDUP_DB_RETENTION_MS < t3) :
    (waRunEvents emptyWaState
        [WaEvent.deliver t1 ⟨u, b, some sid1⟩,
         WaEvent.deliver t2 ⟨u, b, some sid2⟩]).1 =
      [WaOutcome.processed, WaOutcome.emptyAck] ∧
    (waRunEvents emptyWaState
        [WaEvent.deliver t1 ⟨u, b, some sid1⟩, WaEvent.sweep t3,
         WaEvent.deliver t3 ⟨u, b, some sid2⟩]).1 =
      [WaOutcome.processed, WaOutcome.processed] := by
  have hfirst := waStep_first u b sid1 t1
  have hs12 : ∀ x y : String, x = sid1 → y = sid2 →
      ("sid:" ++ x : String) ≠ "sid:" ++ y := by
    intro x y hx hy h
    rw [hx, hy] at h
    exact hsid (sid_append_inj sid1 sid2 h)
  have hd : t1 + DEDUP_DB_RETENTION_MS < t3 := ht
  constructor
  · -- second delivery: fresh sid key inserted, then the durable hash key
    -- (created at t1) conflicts — empty acknowledgement.
    show ((waStep true false t1 ⟨u, b, some sid1⟩ emptyWaState).1 :: _, _).1 = _
    rw [hfirst]
    simp only [waRunEvents]
    have hstep2 : (waStep true false t2 ⟨u, b, some sid2⟩ (waS1 u b sid1 t1)).1 =
        WaOutcome.emptyAck := by
      simp [waStep, dbDedupTryInsert, hasKey, waS1, hs12 sid1 sid2 rfl rfl,
        key_prefix_ne, key_prefix_ne']
    simp [waRunEvents, hstep2]
  · show ((waStep true false t1 ⟨u, b, some sid1⟩ emptyWaState).1 :: _, _).1 = _
    rw [hfirst]
    simp only [waRunEvents]
    have hsweep : cleanupInboundDedup t3 (waS1 u b sid1 t1).db = [] := by
      simp [cleanupInboundDedup, waS1]
      omega
    rw [hsweep]
    have hmemhash : t1 + DEDUP_BODY_TTL_MS < t3 := by
      unfold DEDUP_DB_RETENTION_MS at hd
      unfold DEDUP_BODY_TTL_MS
      omega
    have hrl : ¬ (t3 - t1 < 15000) := by
      unfold DEDUP_DB_RETENTION_MS at hd
      omega
    have hstep3 : (waStep true false t3 ⟨u, b, some sid2⟩
        { waS1 u b sid1 t1 with db := [] }).1 = WaOutcome.processed := by
      by_cases hu : u = "" <;>
        simp [waStep, dbDedupTryInsert, hasKey, ttlHas, ttlFind, ttlSet,
          rlTouch, rlGet, rlSet, RL_MAX_MSGS, RL_WINDOW_MS, waS1, hu, hsid,
          key_prefix_ne, key_prefix_ne', hmemhash, hrl, Nat.lt_asymm hmemhash]
    simp [waRunEvents, hstep3]

/-- Witness for C8 (amended): concrete identities, bodies, sids and times
satisfying the hypotheses. -/
theorem C8_amended_hash_dedup_witness :
    ("s1" : String) ≠ "s2" ∧ (0 : Nat) + DEDUP_DB_RETENTION_MS < 200000000 ∧
    (waRunEvents emptyWaState
        [WaEvent.deliver 0 ⟨"u", "hola", some "s1"⟩, WaEvent.sweep 200000000,
         WaEvent.deliver 200000000 ⟨"u", "hola", some "s2"⟩]).1 =
      [WaOutcome.processed, WaOutcome.processed] :=
  ⟨by decide, by decide,
    (C8_amended_hash_dedup "u" "hola" "s1" "s2" 0 0 200000000 (by decide)
      (by decide)).2⟩

theorem hasLock_mark (locks : List StripeLock) (eid x : String) :
    hasLock (markStripeEventProcessed locks eid) x = hasLock locks x := by
  induction locks with
  | nil => rfl
  | cons l rest ih =>
      by_cases hc : l.event_id = eid <;>
        simp [markStripeEventProcessed, hasLock, hc, ih]

theorem stripeWebhook_dup (ef : Bool) (nowTs : String) (st : StripeState)
    (ev : StripeEvent) (h : hasLock st.locks ev.id = true) :
    stripeWebhook true false ef nowTs st ev = (StripeResp.dedupedOk, st) := by
  simp [stripeWebhook, acquireStripeEventLock, h]

theorem stripeWebhook_fresh (ef : Bool) (nowTs : String) (st : StripeState)
    (ev : StripeEvent) (hfresh : hasLock st.locks ev.id = false) :
    stripeWebhook true false ef nowTs st ev =
      if ef then
        (.err500, { st with locks := ⟨ev.id, false⟩ :: st.locks })
      else if ev.type = "checkout.session.completed" then
        match ev.phone with
        | some p =>
            (.receivedOk,
              { locks := markStripeEventProcessed (⟨ev.id, false⟩ :: st.locks) ev.id,
                users := (updateUser nowTs st.users p (checkoutPatch ev)).2,
                outbox := (p, "payConfirmed") :: st.outbox })
        | none =>
            (.receivedOk,
              { st with locks := markStripeEventProcessed (⟨ev.id, false⟩ :: st.locks) ev.id })
      else
        (.ignoredOk,
          { st with locks := markStripeEventProcessed (⟨ev.id, false⟩ :: st.locks) ev.id }) := by
  simp [stripeWebhook, acquireStripeEventLock, hfresh]

theorem stripeWebhook_fresh_locks (nowTs : String) (st : StripeState)
    (ev : StripeEvent) (ef : Bool) (hfresh : hasLock st.locks ev.id = false) :
    hasLock (stripeWebhook true false ef nowTs st ev).2.locks ev.id = true := by
  rw [stripeWebhook_fresh ef nowTs st ev hfresh]
  cases ef
  · by_cases hty : ev.type = "checkout.session.completed"
    · rw [if_neg (by simp), if_pos hty]
      cases ev.phone <;> simp [hasLock_mark, hasLock]
    · rw [if_neg (by simp), if_neg hty]
      simp [hasLock_mark, hasLock]
  · simp [hasLock]

/-- C2: with the store healthy and the event not yet claimed,
`acquireStripeEventLock` answers `isNew = true` on the first call and
`isNew = false` on the second; and on the second delivery of the same
verified event the webhook responds success (`{received, deduped}`) while
running no effect-producing code path — the users table and the outbound
log are exactly those left by the first delivery. -/
theorem C2_billing_idempotent (nowTs : String) (st : StripeState)
    (ev : StripeEvent) (hfresh : hasLock st.locks ev.id = false) :
    (acquireStripeEventLock false st.locks ev).1 = true ∧
    (acquireStripeEventLock false
        (acquireStripeEventLock false st.locks ev).2 ev).1 = false ∧
    (stripeWebhook true false false nowTs
        (stripeWebhook true false false nowTs st ev).2 ev).1 =
      StripeResp.dedupedOk ∧
    ((stripeWebhook true false false nowTs
        (stripeWebhook true false false nowTs st ev).2 ev).1).isSuccess = true ∧
    (stripeWebhook true false false nowTs
        (stripeWebhook true false false nowTs st ev).2 ev).2.users =
      (stripeWebhook true false false nowTs st ev).2.users ∧
    (stripeWebhook true false false nowTs
        (stripeWebhook true false false nowTs st ev).2 ev).2.outbox =
      (stripeWebhook true false false nowTs st ev).2.outbox := by
  have hdup := stripeWebhook_dup false nowTs
    (stripeWebhook true false false nowTs st ev).2 ev
    (stripeWebhook_fresh_locks nowTs st ev false hfresh)
  refine ⟨?_, ?_, ?_, ?_, ?_, ?_⟩
  · simp [acquireStripeEventLock, hfresh]
  · simp [acquireStripeEventLock, hfresh, hasLock]
  · rw [hdup]
  · rw [hdup]; rfl
  · rw [hdup]
  · rw [hdup]

/-- Witness for C2: a concrete fresh event against the empty state. -/
theorem C2_billing_idempotent_witness :
    hasLock (⟨[], [], []⟩ : StripeState).locks "evt_1" = false ∧
    (stripeWebhook true false false "T"
        (stripeWebhook true false false "T" ⟨[], [], []⟩
          ⟨"evt_1", "checkout.session.completed", some "u", none, none,
            "active", none⟩).2
        ⟨"evt_1", "checkout.session.completed", some "u", none, none,
          "active", none⟩).1 = StripeResp.dedupedOk :=
  ⟨by decide,
    (C2_billing_idempotent "T" ⟨[], [], []⟩
      ⟨"evt_1", "checkout.session.completed", some "u", none, none,
        "active", none⟩ (by decide)).2.2.1⟩

/-- Counterexample to C3 as stated: a verified delivery whose event lock is
newly acquired but whose downstream effect processing throws is answered
with the catch branch's **500**, not with a success response, even though
the event is already durably claimed (its lock row remains). -/
theorem C3_counterexample :
    (stripeWebhook true false true "T" ⟨[], [], []⟩
        ⟨"evt_1", "checkout.session.completed", some "u", none, none,
          "active", none⟩).1 = StripeResp.err500 ∧
    ((stripeWebhook true false true "T" ⟨[], [], []⟩
        ⟨"evt_1", "checkout.session.completed", some "u", none, none,
          "active", none⟩).1).isSuccess = false ∧
    hasLock (stripeWebhook true false true "T" ⟨[], [], []⟩
        ⟨"evt_1", "checkout.session.completed", some "u", none, none,
          "active", none⟩).2.locks "evt_1" = true := by decide

/-- C3 (amended): once the signature verifies and the event lock is newly
acquired, the handler returns success whenever downstream effect processing
completes; if downstream processing fails, that delivery is answered with a
500 error — but the lock is retained, so every redelivery of the same event
is answered success with no effects, and the collaborator's retries
terminate after the failed delivery. -/
theorem C3_amended_claimed_success (nowTs : String) (st : StripeState)
    (ev : StripeEvent) (hfresh : hasLock st.locks ev.id = false) :
    ((stripeWebhook true false false nowTs st ev).1).isSuccess = true ∧
    (stripeWebhook true false true nowTs st ev).1 = StripeResp.err500 ∧
    (∀ ef, stripeWebhook true false ef nowTs
        (stripeWebhook true false true nowTs st ev).2 ev =
      (StripeResp.dedupedOk, (stripeWebhook true false true nowTs st ev).2)) := by
  refine ⟨?_, ?_, ?_⟩
  · rw [stripeWebhook_fresh false nowTs st ev hfresh]
    rw [if_neg (by simp)]
    by_cases hty : ev.type = "checkout.session.completed"
    · rw [if_pos hty]
      cases ev.phone <;> rfl
    · rw [if_neg hty]
      rfl
  · rw [stripeWebhook_fresh true nowTs st ev hfresh]
    rw [if_pos rfl]
  · intro ef
    exact stripeWebhook_dup ef nowTs _ ev
      (stripeWebhook_fresh_locks nowTs st ev true hfresh)

/-- Witness for C3 (amended): concrete fresh event; the failing delivery
gets the 500, the redelivery gets the deduped success. -/
theorem C3_amended_claimed_success_witness :
    hasLock (⟨[], [], []⟩ : StripeState).locks "evt_2" = false ∧
    (stripeWebhook true false true "T" ⟨[], [], []⟩
        ⟨"evt_2", "invoice.paid", none, none, none, "active", none⟩).1 =
      StripeResp.err500 :=
  ⟨by decide,
    (C3_amended_claimed_success "T" ⟨[], [], []⟩
      ⟨"evt_2", "invoice.paid", none, none, none, "active", none⟩
      (by decide)).2.1⟩

/-- C7: while an identity is in the `remind_choose_tone` state (onboarding
seen, message not in the cancel vocabulary, message containing none of the
three tone words): a message that looks like a known unrelated command both
clears `pending_action`/`pending_payload` and falls through to normal intent
resolution, producing that command's reply — not the invalid-tone reply —
for every behaviour of the two resolvers; whereas a message that matches
neither a tone word nor a known command re-prompts for the tone without
changing the stored state at all. -/
theorem C7_choose_tone_escape (savePhoneMatch : String → Bool)
    (nlp : String → Intent) (u : User) (body : String)
    (hpend : u.pending_action = some "remind_choose_tone")
    (hon : u.seen_onboarding = true)
    (hno : isNo body = false)
    (ht1 : containsSub (normLower body) "amable" = false)
    (ht2 : containsSub (normLower body) "firme" = false)
    (ht3 : containsSub (normLower body) "urgente" = false) :
    (looksLikeNewCommand body = true →
      handleMessageHF savePhoneMatch nlp u body =
        (Reply.commandReply (resolveHF savePhoneMatch nlp body), clearPending u) ∧
      (clearPending u).pending_action = none ∧
      (clearPending u).pending_payload = none ∧
      Reply.commandReply (resolveHF savePhoneMatch nlp body) ≠ Reply.toneReprompt) ∧
    (looksLikeNewCommand body = false →
      handleMessageHF savePhoneMatch nlp u body = (Reply.toneReprompt, u)) := by
  constructor
  · intro hcmd
    refine ⟨?_, rfl, rfl, by simp⟩
    simp [handleMessageHF, hon, hno, hpend, hcmd, ht1, ht2, ht3]
  · intro hcmd
    simp [handleMessageHF, hon, hno, hpend, hcmd, ht1, ht2, ht3]

/-- Witness for C7 at the debt-listing phrase `"quien me debe"` (a known
command, no tone word) from the `remind_choose_tone` state, with a fallback
resolver that classifies it as `list_debts`: the handler clears the pending
flow and produces the debt-listing command reply. -/
theorem C7_choose_tone_escape_witness :
    looksLikeNewCommand "quien me debe" = true ∧
      handleMessageHF (fun _ => false) (fun _ => Intent.list_debts)
          ⟨"free", none, none, none, none, 0, "d", some "remind_choose_tone",
            some ⟨some "Pepe", none, none, none, none⟩, true⟩
          "quien me debe" =
        (Reply.commandReply Intent.list_debts,
          ⟨"free", none, none, none, none, 0, "d", none, none, true⟩) := by
  have h := (C7_choose_tone_escape (fun _ => false) (fun _ => Intent.list_debts)
    ⟨"free", none, none, none, none, 0, "d", some "remind_choose_tone",
      some ⟨some "Pepe", none, none, none, none⟩, true⟩
    "quien me debe" rfl rfl (by decide) (by decide) (by decide) (by decide)).1
    (by decide)
  exact ⟨by decide, h.1⟩

theorem rowGet_rowSet_same (r : Row) (c : String) (v : DbVal) :
    rowGet (rowSet r c v) c = some v := by
  induction r with
  | nil => simp [rowSet, rowGet]
  | cons e rest ih => by_cases h : e.1 = c <;> simp [rowSet, rowGet, h, ih]

theorem rowGet_rowSet_other (r : Row) (c cOther : String) (v : DbVal)
    (h : cOther ≠ c) :
    rowGet (rowSet r c v) cOther = rowGet r cOther := by
  induction r with
  | nil => simp [rowSet, rowGet, Ne.symm h]
  | cons e rest ih =>
      by_cases he : e.1 = c
      · simp [rowSet, rowGet, he, Ne.symm h]
      · simp [rowSet, rowGet, he, ih]

theorem applyPatch_not_mem (patch : List (String × DbVal)) (r : Row) (c : String)
    (h : c ∉ patch.map Prod.fst) :
    rowGet (applyPatch r patch) c = rowGet r c := by
  induction patch generalizing r with
  | nil => rfl
  | cons kv rest ih =>
      simp only [List.map, List.mem_cons, not_or] at h
      show rowGet (applyPatch (rowSet r kv.1 kv.2) rest) c = rowGet r c
      rw [ih _ h.2]
      exact rowGet_rowSet_other r kv.1 c kv.2 h.1

theorem applyPatch_mem (patch : List (String × DbVal)) (r : Row)
    (hnd : (patch.map Prod.fst).Nodup) (k : String) (v : DbVal)
    (hmem : (k, v) ∈ patch) :
    rowGet (applyPatch r patch) k = some v := by
  induction patch generalizing r with
  | nil => cases hmem
  | cons kv rest ih =>
      rw [List.map_cons, List.nodup_cons] at hnd
      rcases List.mem_cons.mp hmem with heq | htail
      · subst heq
        show rowGet (applyPatch (rowSet r k v) rest) k = some v
        rw [applyPatch_not_mem rest _ k hnd.1]
        exact rowGet_rowSet_same r k v
      · exact ih _ hnd.2 htail

theorem tget_tset_other (t : UserTable) (p q : String) (r : Row) (h : q ≠ p) :
    tget (tset t p r) q = tget t q := by
  induction t with
  | nil => rfl
  | cons e rest ih =>
      by_cases he : e.1 = p
      · simp [tset, tget, he, Ne.symm h, ih]
      · simp [tset, tget, he, ih]

theorem tget_tset_of_mem (t : UserTable) (p : String) (r r0 : Row)
    (h : tget t p = some r0) : tget (tset t p r) p = some r := by
  induction t with
  | nil => simp [tget] at h
  | cons e rest ih =>
      by_cases he : e.1 = p
      · simp [tset, tget, he]
      · rw [tget, if_neg he] at h
        simp [tset, tget, he, ih h]

theorem tget_append (t1 t2 : UserTable) (q : String) :
    tget (t1 ++ t2) q =
      match tget t1 q with
      | some r => some r
      | none => tget t2 q := by
  induction t1 with
  | nil => rfl
  | cons e rest ih => by_cases he : e.1 = q <;> simp [tget, he, ih]

/-- C10: for every phone and non-empty patch (with the distinct keys a JS
object guarantees, and not touching `updated_at`, which the SQL sets
itself), `updateUser` returns `some` row which is exactly the stored row for
that phone, leaves every other identity's row unchanged, gives every patched
column its patched value, and leaves every column outside the patch (other
than `updated_at`) at its previous value — or, when no row existed, at the
freshly created row's value, so the returned row always reflects the
patched values. -/
theorem C10_updateUser_frame (nowTs : String) (t : UserTable) (phone : String)
    (patch : List (String × DbVal))
    (hne : patch ≠ [])
    (hup : "updated_at" ∉ patch.map Prod.fst)
    (hnd : (patch.map Prod.fst).Nodup) :
    ∃ rRet, (updateUser nowTs t phone patch).1 = some rRet ∧
      tget (updateUser nowTs t phone patch).2 phone = some rRet ∧
      (∀ q, q ≠ phone → tget (updateUser nowTs t phone patch).2 q = tget t q) ∧
      (∀ k v, (k, v) ∈ patch → rowGet rRet k = some v) ∧
      (∀ c, c ∉ patch.map Prod.fst → c ≠ "updated_at" →
        rowGet rRet c = rowGet ((tget t phone).getD (newUserRow phone)) c) := by
  have hempty : patch.isEmpty = false := by
    cases patch with
    | nil => cases hne rfl
    | cons kv rest => rfl
  cases hrow : tget t phone with
  | some r0 =>
      have hd : dbUpdateRows nowTs t phone patch =
          (some (rowSet (applyPatch r0 patch) "updated_at" (some nowTs)),
            tset t phone (rowSet (applyPatch r0 patch) "updated_at" (some nowTs))) := by
        unfold dbUpdateRows
        rw [hrow]
      have hu : updateUser nowTs t phone patch =
          (some (rowSet (applyPatch r0 patch) "updated_at" (some nowTs)),
            tset t phone (rowSet (applyPatch r0 patch) "updated_at" (some nowTs))) := by
        unfold updateUser
        rw [if_neg (by simp [hempty]), hd]
      refine ⟨rowSet (applyPatch r0 patch) "updated_at" (some nowTs),
        by rw [hu], ?_, ?_, ?_, ?_⟩
      · rw [hu]
        exact tget_tset_of_mem t phone _ r0 hrow
      · intro q hq
        rw [hu]
        exact tget_tset_other t phone q _ hq
      · intro k v hkv
        have hk : k ≠ "updated_at" := by
          intro h
          exact hup (h ▸ List.mem_map_of_mem Prod.fst hkv)
        rw [rowGet_rowSet_other _ _ _ _ hk]
        exact applyPatch_mem patch r0 hnd k v hkv
      · intro c hc hcu
        rw [rowGet_rowSet_other _ _ _ _ hcu, applyPatch_not_mem patch r0 c hc]
        rfl
  | none =>
      have hd0 : dbUpdateRows nowTs t phone patch = (none, t) := by
        unfold dbUpdateRows
        rw [hrow]
      have hget1 : tget (t ++ [(phone, newUserRow phone)]) phone =
          some (newUserRow phone) := by
        rw [tget_append, hrow]
        simp [tget]
      have hd1 : dbUpdateRows nowTs (t ++ [(phone, newUserRow phone)]) phone patch =
          (some (rowSet (applyPatch (newUserRow phone) patch) "updated_at" (some nowTs)),
            tset (t ++ [(phone, newUserRow phone)]) phone
              (rowSet (applyPatch (newUserRow phone) patch) "updated_at" (some nowTs))) := by
        unfold dbUpdateRows
        rw [hget1]
      have hg : getOrCreateUser nowTs t phone =
          (newUserRow phone, t ++ [(phone, newUserRow phone)]) := by
        unfold getOrCreateUser
        rw [hrow]
      have hu : updateUser nowTs t phone patch =
          (some (rowSet (applyPatch (newUserRow phone) patch) "updated_at" (some nowTs)),
            tset (t ++ [(phone, newUserRow phone)]) phone
              (rowSet (applyPatch (newUserRow phone) patch) "updated_at" (some nowTs))) := by
        unfold updateUser
        rw [if_neg (by simp [hempty]), hd0, hg, hd1]
      refine ⟨rowSet (applyPatch (newUserRow phone) patch) "updated_at" (some nowTs),
        by rw [hu], ?_, ?_, ?_, ?_⟩
      · rw [hu]
        exact tget_tset_of_mem _ phone _ (newUserRow phone) hget1
      · intro q hq
        rw [hu, tget_tset_other _ phone q _ hq, tget_append]
        cases h2 : tget t q with
        | some r => rfl
        | none => simp [tget, Ne.symm hq]
      · intro k v hkv
        have hk : k ≠ "updated_at" := by
          intro h
          exact hup (h ▸ List.mem_map_of_mem Prod.fst hkv)
        rw [rowGet_rowSet_other _ _ _ _ hk]
        exact applyPatch_mem patch _ hnd k v hkv
      · intro c hc hcu
        rw [rowGet_rowSet_other _ _ _ _ hcu, applyPatch_not_mem patch _ c hc]
        rfl

/-- Witness for C10: patch `plan := pro, pro_until := NULL` applied to a
two-user table; the target row keeps its other column, the other user's row
is untouched, and the returned row reflects the patch. -/
theorem C10_updateUser_frame_witness :
    ((([("plan", some "pro"), ("pro_until", none)] : List (String × DbVal)) ≠ []) ∧
      "updated_at" ∉
        ([("plan", some "pro"), ("pro_until", none)] : List (String × DbVal)).map Prod.fst ∧
      (([("plan", some "pro"), ("pro_until", none)] : List (String × DbVal)).map Prod.fst).Nodup) ∧
    ∃ rRet,
      (updateUser "T9"
          [("555", [("phone", some "555"), ("daily_count", some "7")]),
           ("666", [("phone", some "666")])]
          "555" [("plan", some "pro"), ("pro_until", none)]).1 = some rRet ∧
      tget (updateUser "T9"
          [("555", [("phone", some "555"), ("daily_count", some "7")]),
           ("666", [("phone", some "666")])]
          "555" [("plan", some "pro"), ("pro_until", none)]).2 "555" = some rRet ∧
      (∀ q, q ≠ "555" →
        tget (updateUser "T9"
            [("555", [("phone", some "555"), ("daily_count", some "7")]),
             ("666", [("phone", some "666")])]
            "555" [("plan", some "pro"), ("pro_until", none)]).2 q =
          tget [("555", [("phone", some "555"), ("daily_count", some "7")]),
                ("666", [("phone", some "666")])] q) ∧
      (∀ k v, (k, v) ∈ ([("plan", some "pro"), ("pro_until", none)] : List (String × DbVal)) →
        rowGet rRet k = some v) ∧
      (∀ c, c ∉ ([("plan", some "pro"), ("pro_until", none)] : List (String × DbVal)).map Prod.fst →
        c ≠ "updated_at" →
        rowGet rRet c =
          rowGet ((tget [("555", [("phone", some "555"), ("daily_count", some "7")]),
                         ("666", [("phone", some "666")])] "555").getD (newUserRow "555")) c) :=
  ⟨⟨by decide, by decide, by decide⟩,
    C10_updateUser_frame "T9"
      [("555", [("phone", some "555"), ("daily_count", some "7")]),
       ("666", [("phone", some "666")])]
      "555" [("plan", some "pro"), ("pro_until", none)]
      (by decide) (by decide) (by decide)⟩

/-- Witness for C5: a pro user (active Stripe subscription) with a huge
daily count on a billable intent is not blocked and keeps the count. -/
theorem C5_pro_never_blocked_witness :
    proEquivalentSpec 1000
      ⟨"pro", some "stripe", none, some "active", none, 999, "2025-12-31", none, none, true⟩ ∧
    (enforcePaywallIfNeeded 1000 "2025-12-31" Intent.remind
        ⟨"pro", some "stripe", none, some "active", none, 999, "2025-12-31", none, none, true⟩).blocked
      = false := by
  have hspec : proEquivalentSpec 1000
      ⟨"pro", some "stripe", none, some "active", none, 999, "2025-12-31", none, none, true⟩ :=
    Or.inr (Or.inl ⟨rfl, rfl, Or.inl rfl⟩)
  exact ⟨hspec, (C5_pro_never_blocked 1000 "2025-12-31" Intent.remind _ hspec).1⟩

end Cobranza
